import Mathlib

/-
Shallow embedding of the text layout and geometry-generation engine of
src/src/SFML/Graphics/Text.cpp.  Scalars (C++ float) are modelled as exact
rationals; code points as naturals; the font provider as a record of
functions.  The external affine transform is out of scope (the spec scopes
placement out), so position queries return local coordinates.
-/

namespace SfmlText

/-- Axis-aligned rectangle with rational coordinates, mirroring sf::FloatRect. -/
structure FloatRect where
  left : ℚ
  top : ℚ
  width : ℚ
  height : ℚ
  deriving DecidableEq, Repr

/-- Integer rectangle, mirroring sf::IntRect (a glyph's atlas rectangle). -/
structure IntRect where
  left : ℤ
  top : ℤ
  width : ℤ
  height : ℤ
  deriving DecidableEq, Repr

/-- Glyph descriptor supplied by the font provider, mirroring sf::Glyph. -/
structure Glyph where
  advance : ℚ
  bounds : FloatRect
  textureRect : IntRect
  deriving DecidableEq, Repr

/-- RGBA color, mirroring sf::Color. -/
structure Color where
  r : ℕ
  g : ℕ
  b : ℕ
  a : ℕ
  deriving DecidableEq, Repr

/-- Vertex: 2D position, color, 2D texture coordinate, mirroring sf::Vertex. -/
structure Vertex where
  posX : ℚ
  posY : ℚ
  color : Color
  texX : ℚ
  texY : ℚ
  deriving DecidableEq, Repr

/-- Default vertex used as the fallback of list indexing in statements. -/
def vertexDefault : Vertex := ⟨0, 0, ⟨0, 0, 0, 0⟩, 0, 0⟩

/-- Font provider interface consumed by the text object (sf::Font's queries).
getGlyph takes code point, character size, bold flag and outline thickness;
textureCacheId models getTexture(size).m_cacheId. -/
structure Font where
  getGlyph : ℕ → ℕ → Bool → ℚ → Glyph
  getKerning : ℕ → ℕ → ℕ → Bool → ℚ
  getLineSpacing : ℕ → ℚ
  getUnderlinePosition : ℕ → ℚ
  getUnderlineThickness : ℕ → ℚ
  textureCacheId : ℕ → ℕ

/-- Per-line horizontal alignment, mirroring Text::LineAlignment. -/
inductive LineAlignment where
  | Left
  | Center
  | Right
  deriving DecidableEq, Repr

/-- Bold bit of the style mask (sf::Text::Bold = 1 << 0). -/
def styleBold (style : ℕ) : Bool := style &&& 1 != 0

/-- Italic bit of the style mask (sf::Text::Italic = 1 << 1). -/
def styleItalic (style : ℕ) : Bool := style &&& 2 != 0

/-- Underlined bit of the style mask (sf::Text::Underlined = 1 << 2). -/
def styleUnderlined (style : ℕ) : Bool := style &&& 4 != 0

/-- StrikeThrough bit of the style mask (sf::Text::StrikeThrough = 1 << 3). -/
def styleStrikeThrough (style : ℕ) : Bool := style &&& 8 != 0

/-- Full state of a sf::Text object: style state plus the geometry cache. -/
structure TextState where
  string : List ℕ
  font : Font
  characterSize : ℕ
  letterSpacingFactor : ℚ
  lineSpacingFactor : ℚ
  style : ℕ
  fillColor : Color
  outlineColor : Color
  outlineThickness : ℚ
  lineAlignment : LineAlignment
  geometryNeedUpdate : Bool
  fontTextureId : ℕ
  vertices : List Vertex
  outlineVertices : List Vertex
  bounds : FloatRect

/-- Result of Text::getSpacing. -/
structure Spacing where
  whitespaceWidth : ℚ
  letterSpacing : ℚ
  lineSpacing : ℚ
  deriving DecidableEq, Repr

/-- Text::getSpacing: derives whitespace width, letter spacing and line
spacing from the space glyph's advance and the two spacing factors. -/
def getSpacing (t : TextState) : Spacing :=
  let isBold := styleBold t.style
  let whitespaceWidth := (t.font.getGlyph 32 t.characterSize isBold 0).advance
  let letterSpacing := (whitespaceWidth / 3) * (t.letterSpacingFactor - 1)
  let whitespaceWidth := whitespaceWidth + letterSpacing
  let lineSpacing := t.font.getLineSpacing t.characterSize * t.lineSpacingFactor
  ⟨whitespaceWidth, letterSpacing, lineSpacing⟩

/-- Advance of the space glyph at the active size and boldness. -/
def spaceGlyphAdvance (t : TextState) : ℚ :=
  (t.font.getGlyph 32 t.characterSize (styleBold t.style) 0).advance

/-- C8: the spacing computation returns letterSpacing =
(spaceGlyphAdvance / 3) * (letterSpacingFactor - 1), whitespaceWidth =
spaceGlyphAdvance + letterSpacing and lineSpacing =
fontLineSpacing(size) * lineSpacingFactor; with a letter-spacing factor of
1 the letter spacing is 0 and the whitespace width is exactly the space
glyph's advance. -/
theorem C8_spacing_formulas (t : TextState) :
    (getSpacing t).letterSpacing = (spaceGlyphAdvance t / 3) * (t.letterSpacingFactor - 1)
  ∧ (getSpacing t).whitespaceWidth = spaceGlyphAdvance t + (getSpacing t).letterSpacing
  ∧ (getSpacing t).lineSpacing = t.font.getLineSpacing t.characterSize * t.lineSpacingFactor
  ∧ (getSpacing { t with letterSpacingFactor := 1 }).letterSpacing = 0
  ∧ (getSpacing { t with letterSpacingFactor := 1 }).whitespaceWidth = spaceGlyphAdvance t := by
  refine ⟨rfl, rfl, rfl, ?_, ?_⟩ <;>
    simp [getSpacing, spaceGlyphAdvance]

/-- std::round on rationals: nearest integer, halves rounded away from zero. -/
def roundCpp (x : ℚ) : ℚ :=
  if x < 0 then -((⌊-x + 1/2⌋ : ℤ) : ℚ) else ((⌊x + 1/2⌋ : ℤ) : ℚ)

/-- Loop state of Text::updateLineOffsets: cursor, previous code point,
running maximum width, and the widths pushed so far (one per newline). -/
structure LOState where
  x : ℚ
  y : ℚ
  prevChar : ℕ
  maxWidth : ℚ
  widths : List ℚ
  deriving DecidableEq, Repr

/-- One iteration of the Text::updateLineOffsets loop: kerning first, then
space / tab / newline handling, else the glyph advance plus letter spacing. -/
def lineOffsetsStep (font : Font) (characterSize : ℕ) (isBold : Bool) (sp : Spacing)
    (s : LOState) (c : ℕ) : LOState :=
  let s := { s with x := s.x + font.getKerning s.prevChar c characterSize isBold,
                    prevChar := c }
  if c = 32 then { s with x := s.x + sp.whitespaceWidth }
  else if c = 9 then { s with x := s.x + sp.whitespaceWidth * 4 }
  else if c = 10 then
    { s with y := s.y + sp.lineSpacing,
             maxWidth := if s.x > s.maxWidth then s.x else s.maxWidth,
             widths := s.widths ++ [s.x],
             x := 0 }
  else { s with x := s.x + (font.getGlyph c characterSize isBold 0).advance + sp.letterSpacing }

/-- Final loop state of the width-measuring pass of Text::updateLineOffsets. -/
def lineOffsetsScan (t : TextState) : LOState :=
  t.string.foldl (lineOffsetsStep t.font t.characterSize (styleBold t.style) (getSpacing t))
    ⟨0, 0, 0, 0, []⟩

/-- Widths of all logical lines: the widths pushed at each newline followed by
the final accumulated width pushed after the loop. -/
def lineWidths (t : TextState) : List ℚ :=
  (lineOffsetsScan t).widths ++ [(lineOffsetsScan t).x]

/-- Width-to-offset conversion switch of Text::updateLineOffsets. -/
def alignmentOffset (alignment : LineAlignment) (maxWidth w : ℚ) : ℚ :=
  match alignment with
  | .Right => maxWidth - w
  | .Center => (maxWidth - w) / 2
  | .Left => 0

/-- Text::updateLineOffsets: measure every logical line, then convert widths
into rounded per-alignment offsets.  The running maximum is the one the loop
accumulated (updated only in the newline branch). -/
def updateLineOffsets (t : TextState) : List ℚ :=
  (lineWidths t).map (fun w => roundCpp (alignmentOffset t.lineAlignment (lineOffsetsScan t).maxWidth w))

/-- Loop state of Text::findCharacterPos: local cursor and previous code point. -/
structure CaretState where
  x : ℚ
  y : ℚ
  prevChar : ℕ
  deriving DecidableEq, Repr

/-- One iteration of the Text::findCharacterPos loop.  Note: there is no
carriage-return case; the kerning offset is applied and the previous code
point updated before the switch, exactly as in the source. -/
def caretStep (font : Font) (characterSize : ℕ) (isBold : Bool) (sp : Spacing)
    (s : CaretState) (c : ℕ) : CaretState :=
  let s := { s with x := s.x + font.getKerning s.prevChar c characterSize isBold,
                    prevChar := c }
  if c = 32 then { s with x := s.x + sp.whitespaceWidth }
  else if c = 9 then { s with x := s.x + sp.whitespaceWidth * 4 }
  else if c = 10 then { s with y := s.y + sp.lineSpacing, x := 0 }
  else { s with x := s.x + (font.getGlyph c characterSize isBold 0).advance + sp.letterSpacing }

/-- Text::findCharacterPos in local coordinates: clamp the index, recompute
the line offsets, start at (lineOffsets[0], 0) and walk the first index code
points.  The external affine transform applied by the source afterwards is
out of scope. -/
def findCharacterPos (t : TextState) (index : ℕ) : ℚ × ℚ :=
  let index := if index > t.string.length then t.string.length else index
  let lineOffsets := updateLineOffsets t
  let sp := getSpacing t
  let s := (t.string.take index).foldl
    (caretStep t.font t.characterSize (styleBold t.style) sp)
    ⟨lineOffsets.getD 0 0, 0, 0⟩
  (s.x, s.y)

/-- C9: findCharacterPos silently clamps an out-of-range index: for every
index strictly greater than the string length the returned point equals the
one returned for the string length itself. -/
theorem C9_index_clamped (t : TextState) (index : ℕ) (h : index > t.string.length) :
    findCharacterPos t index = findCharacterPos t t.string.length := by
  simp [findCharacterPos, h]

/-- addLine helper of Text.cpp: append an underline or strikethrough
rectangle (six vertices) with pixel-snapped top and bottom edges. -/
def addLine (vertices : List Vertex) (lineLeft lineRight lineTop : ℚ) (color : Color)
    (offset thickness outlineThickness : ℚ) : List Vertex :=
  let top : ℚ := ((⌊lineTop + offset - thickness / 2 + 1/2⌋ : ℤ) : ℚ)
  let bottom : ℚ := top + ((⌊thickness + 1/2⌋ : ℤ) : ℚ)
  vertices ++
    [⟨lineLeft - outlineThickness, top - outlineThickness, color, 1, 1⟩,
     ⟨lineRight + outlineThickness, top - outlineThickness, color, 1, 1⟩,
     ⟨lineLeft - outlineThickness, bottom + outlineThickness, color, 1, 1⟩,
     ⟨lineLeft - outlineThickness, bottom + outlineThickness, color, 1, 1⟩,
     ⟨lineRight + outlineThickness, top - outlineThickness, color, 1, 1⟩,
     ⟨lineRight + outlineThickness, bottom + outlineThickness, color, 1, 1⟩]

/-- addGlyphQuad helper of Text.cpp: append a glyph quad (six vertices),
expanding the glyph box and the atlas rectangle by one pixel of padding and
shearing each vertex by the italic slope times its vertical offset. -/
def addGlyphQuad (vertices : List Vertex) (posX posY : ℚ) (color : Color)
    (glyph : Glyph) (italicShear : ℚ) : List Vertex :=
  let padding : ℚ := 1
  let left := glyph.bounds.left - padding
  let top := glyph.bounds.top - padding
  let right := glyph.bounds.left + glyph.bounds.width + padding
  let bottom := glyph.bounds.top + glyph.bounds.height + padding
  let u1 := ((glyph.textureRect.left : ℤ) : ℚ) - padding
  let v1 := ((glyph.textureRect.top : ℤ) : ℚ) - padding
  let u2 := ((glyph.textureRect.left + glyph.textureRect.width : ℤ) : ℚ) + padding
  let v2 := ((glyph.textureRect.top + glyph.textureRect.height : ℤ) : ℚ) + padding
  vertices ++
    [⟨posX + left - italicShear * top, posY + top, color, u1, v1⟩,
     ⟨posX + right - italicShear * top, posY + top, color, u2, v1⟩,
     ⟨posX + left - italicShear * bottom, posY + bottom, color, u1, v2⟩,
     ⟨posX + left - italicShear * bottom, posY + bottom, color, u1, v2⟩,
     ⟨posX + right - italicShear * top, posY + top, color, u2, v1⟩,
     ⟨posX + right - italicShear * bottom, posY + bottom, color, u2, v2⟩]

/-- Per-rebuild constants of Text::ensureGeometryUpdate, resolved once before
the walk over the string. -/
structure GeomCtx where
  font : Font
  characterSize : ℕ
  isBold : Bool
  isUnderlined : Bool
  isStrikeThrough : Bool
  italicShear : ℚ
  underlineOffset : ℚ
  underlineThickness : ℚ
  strikeThroughOffset : ℚ
  sp : Spacing
  fillColor : Color
  outlineColor : Color
  outlineThickness : ℚ
  lineOffsets : List ℚ

/-- Loop state of the Text::ensureGeometryUpdate walk. -/
structure GeomState where
  x : ℚ
  y : ℚ
  minX : ℚ
  minY : ℚ
  maxX : ℚ
  maxY : ℚ
  prevChar : ℕ
  line : ℕ
  horizontalOffset : ℚ
  vertices : List Vertex
  outlineVertices : List Vertex
  deriving DecidableEq, Repr

/-- One iteration of the Text::ensureGeometryUpdate loop: skip carriage
returns, apply kerning, emit a decoration rectangle when a newline completes
a line, update the previous code point, then either advance through
whitespace (updating the bound trackers around the advance) or emit the
outline and fill quads and advance by the glyph advance plus letter
spacing. -/
def geomStep (ctx : GeomCtx) (st : GeomState) (c : ℕ) : GeomState :=
  if c = 13 then st
  else
    let x := st.x + ctx.font.getKerning st.prevChar c ctx.characterSize ctx.isBold
    let v1 := if ctx.isUnderlined = true ∧ c = 10 ∧ st.prevChar ≠ 10 then
        addLine st.vertices st.horizontalOffset x st.y ctx.fillColor
          ctx.underlineOffset ctx.underlineThickness 0
      else st.vertices
    let o1 := if ctx.isUnderlined = true ∧ c = 10 ∧ st.prevChar ≠ 10 ∧ ctx.outlineThickness ≠ 0 then
        addLine st.outlineVertices st.horizontalOffset x st.y ctx.outlineColor
          ctx.underlineOffset ctx.underlineThickness ctx.outlineThickness
      else st.outlineVertices
    let v2 := if ctx.isStrikeThrough = true ∧ c = 10 ∧ st.prevChar ≠ 10 then
        addLine v1 st.horizontalOffset x st.y ctx.fillColor
          ctx.strikeThroughOffset ctx.underlineThickness 0
      else v1
    let o2 := if ctx.isStrikeThrough = true ∧ c = 10 ∧ st.prevChar ≠ 10 ∧ ctx.outlineThickness ≠ 0 then
        addLine o1 st.horizontalOffset x st.y ctx.outlineColor
          ctx.strikeThroughOffset ctx.underlineThickness ctx.outlineThickness
      else o1
    if c = 32 ∨ c = 10 ∨ c = 9 then
      let minX := min st.minX x
      let minY := min st.minY st.y
      let stw : GeomState :=
        if c = 32 then
          { st with x := x + ctx.sp.whitespaceWidth, prevChar := c,
                    minX := minX, minY := minY, vertices := v2, outlineVertices := o2 }
        else if c = 9 then
          { st with x := x + ctx.sp.whitespaceWidth * 4, prevChar := c,
                    minX := minX, minY := minY, vertices := v2, outlineVertices := o2 }
        else
          let line := st.line + 1
          let horizontalOffset := ctx.lineOffsets.getD line 0
          { st with y := st.y + ctx.sp.lineSpacing, line := line,
                    horizontalOffset := horizontalOffset, x := horizontalOffset,
                    prevChar := c, minX := minX, minY := minY,
                    vertices := v2, outlineVertices := o2 }
      { stw with maxX := max stw.maxX stw.x, maxY := max stw.maxY stw.y }
    else
      let o3 := if ctx.outlineThickness ≠ 0 then
          addGlyphQuad o2 x st.y ctx.outlineColor
            (ctx.font.getGlyph c ctx.characterSize ctx.isBold ctx.outlineThickness)
            ctx.italicShear
        else o2
      let glyph := ctx.font.getGlyph c ctx.characterSize ctx.isBold 0
      let left := glyph.bounds.left
      let top := glyph.bounds.top
      let right := glyph.bounds.left + glyph.bounds.width
      let bottom := glyph.bounds.top + glyph.bounds.height
      { st with x := x + glyph.advance + ctx.sp.letterSpacing,
                prevChar := c,
                minX := min st.minX (x + left - ctx.italicShear * bottom),
                maxX := max st.maxX (x + right - ctx.italicShear * top),
                minY := min st.minY (st.y + top),
                maxY := max st.maxY (st.y + bottom),
                vertices := addGlyphQuad v2 x st.y ctx.fillColor glyph ctx.italicShear,
                outlineVertices := o3 }

/-- Cache-reset prologue of the rebuild branch of Text::ensureGeometryUpdate:
store the current font texture id, clear the dirty flag, clear both vertex
buffers and reset the bounds. -/
def clearCache (t : TextState) : TextState :=
  { t with fontTextureId := t.font.textureCacheId t.characterSize,
           geometryNeedUpdate := false,
           vertices := [], outlineVertices := [],
           bounds := ⟨0, 0, 0, 0⟩ }

/-- Strike-through vertical offset computed by the rebuild: the vertical
center of the lowercase x glyph's box at the current size and boldness. -/
def strikeThroughOffsetOf (t : TextState) : ℚ :=
  let b := (t.font.getGlyph 120 t.characterSize (styleBold t.style) 0).bounds
  b.top + b.height / 2

/-- Per-rebuild constants of Text::ensureGeometryUpdate, resolved from the
style state before the walk.  The parameter shearConst stands for the
irrational constant degrees(12).asRadians() used as the italic shear; no
claim depends on its value. -/
def geomCtxOf (shearConst : ℚ) (t : TextState) : GeomCtx :=
  ⟨t.font, t.characterSize, styleBold t.style, styleUnderlined t.style,
   styleStrikeThrough t.style, (if styleItalic t.style then shearConst else 0),
   t.font.getUnderlinePosition t.characterSize, t.font.getUnderlineThickness t.characterSize,
   strikeThroughOffsetOf t, getSpacing t, t.fillColor, t.outlineColor,
   t.outlineThickness, updateLineOffsets t⟩

/-- Initial walk state of the rebuild: the cursor starts at the first line's
offset with y at the character size; the bound trackers are seeded with min
at the character size and max at 0. -/
def geomStart (t : TextState) : GeomState :=
  ⟨(updateLineOffsets t).getD 0 0, (t.characterSize : ℚ), (t.characterSize : ℚ),
   (t.characterSize : ℚ), 0, 0, 0, 0, (updateLineOffsets t).getD 0 0, [], []⟩

/-- Rebuild branch of Text::ensureGeometryUpdate: reset the cache, return at
once for an empty string, otherwise walk the string, expand the bounds by
ceil of the outline thickness when an outline is active, emit the trailing
decoration rectangles when the final cursor x is positive, and store the
vertex buffers and the bounding rectangle. -/
def rebuildGeometry (shearConst : ℚ) (t0 : TextState) : TextState :=
  let t := clearCache t0
  if t.string.isEmpty then t
  else
    let ctx := geomCtxOf shearConst t
    let st := t.string.foldl (geomStep ctx) (geomStart t)
    let outline := |((⌈t.outlineThickness⌉ : ℤ) : ℚ)|
    let minX := if t.outlineThickness ≠ 0 then st.minX - outline else st.minX
    let maxX := if t.outlineThickness ≠ 0 then st.maxX + outline else st.maxX
    let minY := if t.outlineThickness ≠ 0 then st.minY - outline else st.minY
    let maxY := if t.outlineThickness ≠ 0 then st.maxY + outline else st.maxY
    let st := if ctx.isUnderlined = true ∧ st.x > 0 then
        { st with
          vertices := addLine st.vertices st.horizontalOffset st.x st.y ctx.fillColor
            ctx.underlineOffset ctx.underlineThickness 0,
          outlineVertices := if ctx.outlineThickness ≠ 0 then
              addLine st.outlineVertices st.horizontalOffset st.x st.y ctx.outlineColor
                ctx.underlineOffset ctx.underlineThickness ctx.outlineThickness
            else st.outlineVertices }
      else st
    let st := if ctx.isStrikeThrough = true ∧ st.x > 0 then
        { st with
          vertices := addLine st.vertices st.horizontalOffset st.x st.y ctx.fillColor
            ctx.strikeThroughOffset ctx.underlineThickness 0,
          outlineVertices := if ctx.outlineThickness ≠ 0 then
              addLine st.outlineVertices st.horizontalOffset st.x st.y ctx.outlineColor
                ctx.strikeThroughOffset ctx.underlineThickness ctx.outlineThickness
            else st.outlineVertices }
      else st
    { t with vertices := st.vertices, outlineVertices := st.outlineVertices,
             bounds := ⟨minX, minY, maxX - minX, maxY - minY⟩ }

/-- Text::ensureGeometryUpdate instrumented with a flag recording whether the
rebuild branch ran: the call is skipped exactly when the dirty flag is clear
and the font's current texture id equals the cached one. -/
def ensureGeometryUpdateB (shearConst : ℚ) (t : TextState) : TextState × Bool :=
  if t.geometryNeedUpdate = false ∧ t.font.textureCacheId t.characterSize = t.fontTextureId
  then (t, false)
  else (rebuildGeometry shearConst t, true)

/-- Text::ensureGeometryUpdate as a state transformer. -/
def ensureGeometryUpdate (shearConst : ℚ) (t : TextState) : TextState :=
  (ensureGeometryUpdateB shearConst t).1

/-- Text::getLocalBounds: ensure the geometry is up to date and read the
cached bounds. -/
def getLocalBounds (shearConst : ℚ) (t : TextState) : TextState × FloatRect :=
  ((ensureGeometryUpdate shearConst t), (ensureGeometryUpdate shearConst t).bounds)

/-- Text::setFillColor: when the color changes and the cache is not dirty,
repaint the fill vertices in place instead of marking the cache dirty. -/
def setFillColor (t : TextState) (color : Color) : TextState :=
  if color ≠ t.fillColor then
    let t1 := { t with fillColor := color }
    if t1.geometryNeedUpdate = false then
      { t1 with vertices := t1.vertices.map (fun v => { v with color := t1.fillColor }) }
    else t1
  else t

/-- Text::setOutlineColor: the same in-place repaint for the outline buffer. -/
def setOutlineColor (t : TextState) (color : Color) : TextState :=
  if color ≠ t.outlineColor then
    let t1 := { t with outlineColor := color }
    if t1.geometryNeedUpdate = false then
      { t1 with outlineVertices := t1.outlineVertices.map (fun v => { v with color := t1.outlineColor }) }
    else t1
  else t

/-- Opaque white fill color used by the concrete examples. -/
def whiteC : Color := ⟨255, 255, 255, 255⟩

/-- Red color used by the concrete examples. -/
def redC : Color := ⟨255, 0, 0, 255⟩

/-- Blue color used by the concrete examples. -/
def blueC : Color := ⟨0, 0, 255, 255⟩

/-- Test font for the alignment scenarios: code point 65 has advance 2 and
code point 66 has advance 1 with its box starting at x = 3; all kerning is
zero and the line spacing is 5. -/
def fontAlign : Font :=
  { getGlyph := fun c _ _ _ =>
      if c = 65 then ⟨2, ⟨0, 0, 1, 1⟩, ⟨0, 0, 1, 1⟩⟩
      else if c = 66 then ⟨1, ⟨3, 0, 2, 2⟩, ⟨4, 0, 2, 2⟩⟩
      else ⟨0, ⟨0, 0, 0, 0⟩, ⟨0, 0, 0, 0⟩⟩,
    getKerning := fun _ _ _ _ => 0,
    getLineSpacing := fun _ => 5,
    getUnderlinePosition := fun _ => 2,
    getUnderlineThickness := fun _ => 1,
    textureCacheId := fun _ => 7 }

/-- Two-line right-aligned state over fontAlign with the first line wider:
the string is the code points of A, newline, B. -/
def exC1 : TextState :=
  { string := [65, 10, 66], font := fontAlign, characterSize := 10,
    letterSpacingFactor := 1, lineSpacingFactor := 1, style := 0,
    fillColor := whiteC, outlineColor := blueC, outlineThickness := 0,
    lineAlignment := .Right, geometryNeedUpdate := true, fontTextureId := 0,
    vertices := [], outlineVertices := [], bounds := ⟨0, 0, 0, 0⟩ }

/-- Test font where every glyph has advance 1 and zero kerning. -/
def fontUnit : Font :=
  { getGlyph := fun _ _ _ _ => ⟨1, ⟨0, 0, 1, 1⟩, ⟨0, 0, 1, 1⟩⟩,
    getKerning := fun _ _ _ _ => 0,
    getLineSpacing := fun _ => 5,
    getUnderlinePosition := fun _ => 2,
    getUnderlineThickness := fun _ => 1,
    textureCacheId := fun _ => 7 }

/-- Two-line right-aligned state over fontUnit whose final line is the
widest: the string is A, newline, B, B. -/
def exC3 : TextState :=
  { string := [65, 10, 66, 66], font := fontUnit, characterSize := 10,
    letterSpacingFactor := 1, lineSpacingFactor := 1, style := 0,
    fillColor := whiteC, outlineColor := blueC, outlineThickness := 0,
    lineAlignment := .Right, geometryNeedUpdate := true, fontTextureId := 0,
    vertices := [], outlineVertices := [], bounds := ⟨0, 0, 0, 0⟩ }

/-- Test font whose carriage-return glyph has a nonzero advance of 7. -/
def fontCr : Font :=
  { getGlyph := fun c _ _ _ =>
      if c = 13 then ⟨7, ⟨0, 0, 1, 1⟩, ⟨0, 0, 1, 1⟩⟩
      else ⟨1, ⟨0, 0, 1, 1⟩, ⟨0, 0, 1, 1⟩⟩,
    getKerning := fun _ _ _ _ => 0,
    getLineSpacing := fun _ => 5,
    getUnderlinePosition := fun _ => 2,
    getUnderlineThickness := fun _ => 1,
    textureCacheId := fun _ => 7 }

/-- Left-aligned state over fontCr whose string is a single carriage return. -/
def exC4 : TextState :=
  { string := [13], font := fontCr, characterSize := 10,
    letterSpacingFactor := 1, lineSpacingFactor := 1, style := 0,
    fillColor := whiteC, outlineColor := blueC, outlineThickness := 0,
    lineAlignment := .Left, geometryNeedUpdate := true, fontTextureId := 0,
    vertices := [], outlineVertices := [], bounds := ⟨0, 0, 0, 0⟩ }

/-- Test font for the underline scenario: every glyph has advance 3 and a
2-by-2 box, the underline sits 2 units under the baseline with thickness 1,
and lines are 10 units apart. -/
def fontUl : Font :=
  { getGlyph := fun _ _ _ _ => ⟨3, ⟨0, 0, 2, 2⟩, ⟨0, 0, 2, 2⟩⟩,
    getKerning := fun _ _ _ _ => 0,
    getLineSpacing := fun _ => 10,
    getUnderlinePosition := fun _ => 2,
    getUnderlineThickness := fun _ => 1,
    textureCacheId := fun _ => 7 }

/-- Underlined two-line state over fontUl: the string is A, newline, B. -/
def exC6 : TextState :=
  { string := [65, 10, 66], font := fontUl, characterSize := 10,
    letterSpacingFactor := 1, lineSpacingFactor := 1, style := 4,
    fillColor := whiteC, outlineColor := blueC, outlineThickness := 0,
    lineAlignment := .Left, geometryNeedUpdate := true, fontTextureId := 0,
    vertices := [], outlineVertices := [], bounds := ⟨0, 0, 0, 0⟩ }

/-- Test font of the single-glyph scenario: code point 65 has advance 10 and
box (0, 0, 8, 10); all kerning is zero. -/
def fontMono : Font :=
  { getGlyph := fun c _ _ _ =>
      if c = 65 then ⟨10, ⟨0, 0, 8, 10⟩, ⟨0, 0, 8, 10⟩⟩
      else ⟨4, ⟨0, 0, 3, 3⟩, ⟨20, 0, 3, 3⟩⟩,
    getKerning := fun _ _ _ _ => 0,
    getLineSpacing := fun _ => 22,
    getUnderlinePosition := fun _ => 2,
    getUnderlineThickness := fun _ => 1,
    textureCacheId := fun _ => 7 }

/-- Left-aligned single-character state over fontMono at character size 20
with no outline. -/
def exC7 : TextState :=
  { string := [65], font := fontMono, characterSize := 20,
    letterSpacingFactor := 1, lineSpacingFactor := 1, style := 0,
    fillColor := whiteC, outlineColor := blueC, outlineThickness := 0,
    lineAlignment := .Left, geometryNeedUpdate := true, fontTextureId := 0,
    vertices := [], outlineVertices := [], bounds := ⟨0, 0, 0, 0⟩ }

/-- State with a valid (not dirty) cache holding one fill vertex and one
outline vertex, for the color fast-path claims. -/
def exC5 : TextState :=
  { string := [65], font := fontMono, characterSize := 20,
    letterSpacingFactor := 1, lineSpacingFactor := 1, style := 0,
    fillColor := whiteC, outlineColor := blueC, outlineThickness := 2,
    lineAlignment := .Left, geometryNeedUpdate := false, fontTextureId := 7,
    vertices := [⟨1, 2, whiteC, 3, 4⟩, ⟨5, 6, whiteC, 7, 8⟩],
    outlineVertices := [⟨9, 10, blueC, 11, 12⟩],
    bounds := ⟨0, 20, 8, 10⟩ }

/-- C1: the claim says the position-query walk resets the cursor x to the
next entry of the line-offset table at a newline, as the geometry builder
does.  At this right-aligned two-line input the table is [0, 1] and the
geometry builder places the second-line glyph from cursor x = 1 (its quad
starts at 1 + glyph.bounds.left - padding = 3), yet findCharacterPos resets
x to 0 at the newline and returns x = 0 for the character after it. -/
theorem C1_newline_reset_divergence :
    updateLineOffsets exC1 = [0, 1]
  ∧ findCharacterPos exC1 2 = (0, 5)
  ∧ ((ensureGeometryUpdate 0 exC1).vertices.getD 6 vertexDefault).posX = 3 := by
  with_unfolding_all decide

/-- C4 counterexample: a carriage return is not transparent to the position
query: with a font whose carriage-return glyph has advance 7, walking the
single-character string consisting of one carriage return moves the cursor
from 0 to 7, so the point for index 1 differs from the point for index 0. -/
theorem C4_counterexample :
    findCharacterPos exC4 1 ≠ findCharacterPos exC4 0
  ∧ (findCharacterPos exC4 1).1 = 7
  ∧ (findCharacterPos exC4 0).1 = 0 := by
  with_unfolding_all decide

/-- C4 amended: carriage returns are transparent to the geometry pass only,
whose step leaves the walk state untouched; the line-metrics pass and the
position query treat a carriage return like a regular code point, applying
kerning, updating the previous-code-point state and adding the glyph's
advance plus letter spacing. -/
theorem C4_carriage_return_amended :
    (∀ (ctx : GeomCtx) (st : GeomState), geomStep ctx st 13 = st)
  ∧ (∀ (font : Font) (characterSize : ℕ) (isBold : Bool) (sp : Spacing) (s : LOState),
      lineOffsetsStep font characterSize isBold sp s 13 =
        { s with x := s.x + font.getKerning s.prevChar 13 characterSize isBold
                        + (font.getGlyph 13 characterSize isBold 0).advance + sp.letterSpacing,
                 prevChar := 13 })
  ∧ (∀ (font : Font) (characterSize : ℕ) (isBold : Bool) (sp : Spacing) (s : CaretState),
      caretStep font characterSize isBold sp s 13 =
        { s with x := s.x + font.getKerning s.prevChar 13 characterSize isBold
                        + (font.getGlyph 13 characterSize isBold 0).advance + sp.letterSpacing,
                 prevChar := 13 }) := by
  refine ⟨fun ctx st => rfl, fun font characterSize isBold sp s => rfl,
    fun font characterSize isBold sp s => rfl⟩

/-- C6: for the underlined two-line string A, newline, B the fill buffer is
exactly the quad of A, the underline rectangle of the first line (emitted at
the newline because the previous code point was not a newline), the quad of
B, and the trailing underline rectangle (emitted after the walk because the
final cursor x = 3 > 0); with baseline 10 (resp. 20), offset 2 and thickness
1 the rectangles are pixel-snapped to top 12, bottom 13 (resp. 22, 23),
matching top = floor(y + offset - thickness/2 + 0.5) and
bottom = top + floor(thickness + 0.5). -/
theorem C6_two_underline_rectangles :
    (ensureGeometryUpdate 0 exC6).vertices =
      addLine (addGlyphQuad (addLine (addGlyphQuad [] 0 10 whiteC (fontUl.getGlyph 65 10 false 0) 0)
        0 3 10 whiteC 2 1 0) 0 20 whiteC (fontUl.getGlyph 66 10 false 0) 0) 0 3 20 whiteC 2 1 0
  ∧ ((ensureGeometryUpdate 0 exC6).vertices.getD 6 vertexDefault).posY = 12
  ∧ ((ensureGeometryUpdate 0 exC6).vertices.getD 8 vertexDefault).posY = 13
  ∧ ((ensureGeometryUpdate 0 exC6).vertices.getD 18 vertexDefault).posY = 22
  ∧ ((ensureGeometryUpdate 0 exC6).vertices.getD 20 vertexDefault).posY = 23
  ∧ (12 : ℚ) = ((⌊(10 : ℚ) + 2 - 1 / 2 + 1 / 2⌋ : ℤ) : ℚ)
  ∧ (13 : ℚ) = 12 + ((⌊(1 : ℚ) + 1 / 2⌋ : ℤ) : ℚ) := by
  with_unfolding_all decide

/-- C7 counterexample: for the single-character scenario (glyph box
(0, 0, 8, 10), advance 10, size 20, no outline, left alignment) the computed
local bounds are (0, 20, 8, 10), not approximately (-1, -1, 10, 12): the
bounds accumulate the unpadded glyph box shifted by the baseline cursor
(0, characterSize), so the top alone differs from the claimed value by 21. -/
theorem C7_counterexample :
    (ensureGeometryUpdate 0 exC7).bounds = ⟨0, 20, 8, 10⟩
  ∧ (ensureGeometryUpdate 0 exC7).bounds.top - (-1) = 21
  ∧ (ensureGeometryUpdate 0 exC7).bounds.left - (-1) = 1 := by
  with_unfolding_all decide

/-- C7 amended: the rebuild emits exactly one quad of six fill vertices, the
(0, 0, 8, 10) glyph box expanded by one pixel of padding on all sides and
placed at the baseline cursor (0, 20), so its corners run from (-1, 19) to
(9, 31); the outline buffer stays empty and the local bounds before
transform are (0, 20, 8, 10), the unpadded glyph box shifted by the
cursor. -/
theorem C7_single_quad_amended :
    (ensureGeometryUpdate 0 exC7).vertices =
      addGlyphQuad [] 0 20 whiteC (fontMono.getGlyph 65 20 false 0) 0
  ∧ (ensureGeometryUpdate 0 exC7).vertices.length = 6
  ∧ ((ensureGeometryUpdate 0 exC7).vertices.getD 0 vertexDefault).posX = -1
  ∧ ((ensureGeometryUpdate 0 exC7).vertices.getD 0 vertexDefault).posY = 19
  ∧ ((ensureGeometryUpdate 0 exC7).vertices.getD 5 vertexDefault).posX = 9
  ∧ ((ensureGeometryUpdate 0 exC7).vertices.getD 5 vertexDefault).posY = 31
  ∧ (ensureGeometryUpdate 0 exC7).outlineVertices = []
  ∧ (ensureGeometryUpdate 0 exC7).bounds = ⟨0, 20, 8, 10⟩ := by
  with_unfolding_all decide

/-- C9 witness: index 2 exceeds the single-character string's length and the
query returns the same point as for the length itself. -/
theorem C9_witness :
    2 > exC7.string.length
  ∧ findCharacterPos exC7 2 = findCharacterPos exC7 exC7.string.length :=
  ⟨by decide, C9_index_clamped exC7 2 (by decide)⟩

/-- A running-maximum update written as a conditional equals max. -/
lemma ite_gt_eq_max (a b : ℚ) : (if b > a then b else a) = max a b := by
  rcases le_or_lt b a with hle | hlt
  · rw [if_neg (not_lt.mpr hle), max_eq_left hle]
  · rw [if_pos hlt, max_eq_right hlt.le]

/-- One step of the width-measuring loop preserves the invariant that the
running maximum equals the fold of max over the widths pushed so far. -/
lemma lineOffsetsStep_max_invariant (font : Font) (characterSize : ℕ) (isBold : Bool)
    (sp : Spacing) (s : LOState) (c : ℕ) (h : s.maxWidth = s.widths.foldl max 0) :
    (lineOffsetsStep font characterSize isBold sp s c).maxWidth
      = (lineOffsetsStep font characterSize isBold sp s c).widths.foldl max 0 := by
  unfold lineOffsetsStep
  by_cases h32 : c = 32
  · simpa [h32] using h
  · by_cases h9 : c = 9
    · simpa [h32, h9] using h
    · by_cases h10 : c = 10
      · subst h10
        rw [if_neg (by decide : ¬(10 : ℕ) = 32), if_neg (by decide : ¬(10 : ℕ) = 9),
          if_pos (rfl : (10 : ℕ) = 10)]
        dsimp only
        rw [List.foldl_append, h, ite_gt_eq_max]
        simp
      · simpa [h32, h9, h10] using h

/-- The running-maximum invariant propagated through a whole fold of the
width-measuring loop. -/
lemma foldl_lineOffsetsStep_max (font : Font) (characterSize : ℕ) (isBold : Bool)
    (sp : Spacing) :
    ∀ (cs : List ℕ) (s0 : LOState), s0.maxWidth = s0.widths.foldl max 0 →
      (cs.foldl (lineOffsetsStep font characterSize isBold sp) s0).maxWidth
        = (cs.foldl (lineOffsetsStep font characterSize isBold sp) s0).widths.foldl max 0
  | [], _, h0 => h0
  | c :: cs, s0, h0 =>
    foldl_lineOffsetsStep_max font characterSize isBold sp cs _
      (lineOffsetsStep_max_invariant font characterSize isBold sp s0 c h0)

/-- After the whole width-measuring pass the running maximum equals the fold
of max over all widths pushed at newlines (the final line excluded). -/
lemma lineOffsetsScan_max (t : TextState) :
    (lineOffsetsScan t).maxWidth = (lineOffsetsScan t).widths.foldl max 0 :=
  foldl_lineOffsetsStep_max t.font t.characterSize (styleBold t.style) (getSpacing t)
    t.string ⟨0, 0, 0, 0, []⟩ rfl

/-- C3 counterexample: with both glyph advances 1, right alignment and the
string A, newline, B, B the final line (width 2) is the widest, but the code
excludes it from maxWidth (which stays 1), so the second table entry is
round((1 - 2) * 1) = -1 and not round((2 - 2) * 1) = 0 as the claim's
maximum over all logical lines, final line included, would give. -/
theorem C3_counterexample :
    updateLineOffsets exC3 = [0, -1]
  ∧ lineWidths exC3 = [1, 2]
  ∧ (lineWidths exC3).foldl max 0 = 2
  ∧ (updateLineOffsets exC3).getD 1 0
      ≠ roundCpp (((lineWidths exC3).foldl max 0 - (lineWidths exC3).getD 1 0) * 1) := by
  with_unfolding_all decide

/-- C3 amended: under center or right alignment every entry of the
line-offset table equals round((maxWidth - width[i]) * k) with k = 1/2 for
center and k = 1 for right, where maxWidth is the maximum over the widths of
the newline-terminated lines only: the final line after the last newline is
excluded from the maximum (and the maximum is 0 for a string without
newlines). -/
theorem C3_offsets_amended (t : TextState)
    (h : t.lineAlignment = .Center ∨ t.lineAlignment = .Right) :
    updateLineOffsets t = (lineWidths t).map (fun w =>
      roundCpp ((((lineWidths t).dropLast).foldl max 0 - w)
        * (if t.lineAlignment = .Center then (1 : ℚ) / 2 else 1))) := by
  have hdrop : (lineWidths t).dropLast = (lineOffsetsScan t).widths := by
    simp [lineWidths]
  unfold updateLineOffsets
  rw [hdrop, ← lineOffsetsScan_max]
  rcases h with hc | hr
  · rw [hc]
    refine List.map_congr_left fun w _ => ?_
    rw [if_pos rfl]
    simp only [alignmentOffset]
    congr 1
    ring
  · rw [hr]
    refine List.map_congr_left fun w _ => ?_
    rw [if_neg (by decide : ¬LineAlignment.Right = LineAlignment.Center), mul_one]
    simp only [alignmentOffset]

/-- C3 witness: the amended formula instantiated at the concrete right-aligned
two-line state. -/
theorem C3_witness :
    (exC3.lineAlignment = .Center ∨ exC3.lineAlignment = .Right)
  ∧ updateLineOffsets exC3 = (lineWidths exC3).map (fun w =>
      roundCpp ((((lineWidths exC3).dropLast).foldl max 0 - w)
        * (if exC3.lineAlignment = .Center then (1 : ℚ) / 2 else 1))) :=
  ⟨Or.inr rfl, C3_offsets_amended exC3 (Or.inr rfl)⟩

/-- C5: when the cache is not dirty, setting a different fill (resp. outline)
color repaints the color field of every vertex of the fill (resp. outline)
buffer in place, keeping positions and texture coordinates, the vertex count
and order, the other buffer, the bounds and the dirty flag unchanged, and
triggers no rebuild. -/
theorem C5_color_fast_path (t : TextState) (c d : Color)
    (hv : t.geometryNeedUpdate = false) (hc : c ≠ t.fillColor) (hd : d ≠ t.outlineColor) :
    (setFillColor t c).vertices = t.vertices.map (fun v => { v with color := c })
  ∧ (setFillColor t c).outlineVertices = t.outlineVertices
  ∧ (setFillColor t c).bounds = t.bounds
  ∧ (setFillColor t c).geometryNeedUpdate = false
  ∧ (setFillColor t c).vertices.length = t.vertices.length
  ∧ (setOutlineColor t d).outlineVertices = t.outlineVertices.map (fun v => { v with color := d })
  ∧ (setOutlineColor t d).vertices = t.vertices
  ∧ (setOutlineColor t d).bounds = t.bounds
  ∧ (setOutlineColor t d).geometryNeedUpdate = false
  ∧ (setOutlineColor t d).outlineVertices.length = t.outlineVertices.length := by
  simp [setFillColor, setOutlineColor, hv, hc, hd]

/-- C5 witness: the fast path evaluated on a concrete valid cache with two
fill vertices and one outline vertex. -/
theorem C5_witness :
    (exC5.geometryNeedUpdate = false ∧ redC ≠ exC5.fillColor ∧ whiteC ≠ exC5.outlineColor)
  ∧ ((setFillColor exC5 redC).vertices = exC5.vertices.map (fun v => { v with color := redC })
  ∧ (setFillColor exC5 redC).outlineVertices = exC5.outlineVertices
  ∧ (setFillColor exC5 redC).bounds = exC5.bounds
  ∧ (setFillColor exC5 redC).geometryNeedUpdate = false
  ∧ (setFillColor exC5 redC).vertices.length = exC5.vertices.length
  ∧ (setOutlineColor exC5 whiteC).outlineVertices
      = exC5.outlineVertices.map (fun v => { v with color := whiteC })
  ∧ (setOutlineColor exC5 whiteC).vertices = exC5.vertices
  ∧ (setOutlineColor exC5 whiteC).bounds = exC5.bounds
  ∧ (setOutlineColor exC5 whiteC).geometryNeedUpdate = false
  ∧ (setOutlineColor exC5 whiteC).outlineVertices.length = exC5.outlineVertices.length) :=
  ⟨⟨by decide, by decide, by decide⟩,
    C5_color_fast_path exC5 redC whiteC (by decide) (by decide) (by decide)⟩

/-- The rebuild clears the dirty flag, stores the font's current texture id
and leaves the font, the character size and the style state untouched. -/
lemma rebuildGeometry_cache_fields (sh : ℚ) (t : TextState) :
    (rebuildGeometry sh t).geometryNeedUpdate = false
  ∧ (rebuildGeometry sh t).font = t.font
  ∧ (rebuildGeometry sh t).characterSize = t.characterSize
  ∧ (rebuildGeometry sh t).fontTextureId = t.font.textureCacheId t.characterSize := by
  by_cases he : t.string.isEmpty <;>
    refine ⟨?_, ?_, ?_, ?_⟩ <;>
      simp [rebuildGeometry, clearCache, he]

/-- After any call of ensureGeometryUpdate the skip condition holds. -/
lemma ensureGeometryUpdate_skip_condition (sh : ℚ) (t : TextState) :
    (ensureGeometryUpdate sh t).geometryNeedUpdate = false
  ∧ (ensureGeometryUpdate sh t).font.textureCacheId (ensureGeometryUpdate sh t).characterSize
      = (ensureGeometryUpdate sh t).fontTextureId := by
  unfold ensureGeometryUpdate ensureGeometryUpdateB
  split
  · next hcond => exact ⟨hcond.1, hcond.2⟩
  · obtain ⟨h1, h2, h3, h4⟩ := rebuildGeometry_cache_fields sh t
    exact ⟨h1, by rw [h2, h3, h4]⟩

/-- C2: with no intervening mutation (the state, including the font, is
unchanged between calls) a second geometry access performs no rebuild and
returns the identical state, hence bit-identical fill vertices, outline
vertices and bounds; and a rebuild runs if and only if the dirty flag is set
or the cached texture version differs from the font's current one for the
active character size. -/
theorem C2_cache_idempotent_and_rebuild_condition (sh : ℚ) (t : TextState) :
    (ensureGeometryUpdateB sh (ensureGeometryUpdate sh t)).2 = false
  ∧ ensureGeometryUpdate sh (ensureGeometryUpdate sh t) = ensureGeometryUpdate sh t
  ∧ (getLocalBounds sh (getLocalBounds sh t).1).2 = (getLocalBounds sh t).2
  ∧ ((ensureGeometryUpdateB sh t).2 = true
      ↔ (t.geometryNeedUpdate = true
          ∨ t.font.textureCacheId t.characterSize ≠ t.fontTextureId)) := by
  obtain ⟨hg, hid⟩ := ensureGeometryUpdate_skip_condition sh t
  have hskip : (ensureGeometryUpdateB sh (ensureGeometryUpdate sh t))
      = (ensureGeometryUpdate sh t, false) := by
    unfold ensureGeometryUpdateB
    rw [if_pos ⟨hg, hid⟩]
  have hidem : ensureGeometryUpdate sh (ensureGeometryUpdate sh t) = ensureGeometryUpdate sh t := by
    show (ensureGeometryUpdateB sh (ensureGeometryUpdate sh t)).1 = ensureGeometryUpdate sh t
    rw [hskip]
  refine ⟨by rw [hskip], hidem, ?_, ?_⟩
  · show (ensureGeometryUpdate sh (ensureGeometryUpdate sh t)).bounds
      = (ensureGeometryUpdate sh t).bounds
    rw [hidem]
  · unfold ensureGeometryUpdateB
    split
    · next hcond =>
      simp only [Bool.false_eq_true, false_iff, not_or, not_not]
      exact ⟨by simp [hcond.1], hcond.2⟩
    · next hcond =>
      simp only [true_iff]
      rcases not_and_or.mp hcond with h1 | h2
      · exact Or.inl (by simpa using h1)
      · exact Or.inr h2

/-- Characters the geometry walk emits no quad for: space, tab, newline and
carriage return. -/
def isSkippedChar (c : ℕ) : Bool := c == 32 || c == 9 || c == 10 || c == 13

/-- Number of code points of the string that receive a glyph quad. -/
def glyphCount (s : List ℕ) : ℕ := (s.filter (fun c => !(isSkippedChar c))).length

/-- addLine appends exactly six vertices. -/
lemma addLine_length (vs : List Vertex) (lineLeft lineRight lineTop : ℚ) (color : Color)
    (offset thickness outlineThickness : ℚ) :
    (addLine vs lineLeft lineRight lineTop color offset thickness outlineThickness).length
      = vs.length + 6 := by
  simp [addLine]

/-- addGlyphQuad appends exactly six vertices. -/
lemma addGlyphQuad_length (vs : List Vertex) (px py : ℚ) (color : Color) (glyph : Glyph)
    (shear : ℚ) :
    (addGlyphQuad vs px py color glyph shear).length = vs.length + 6 := by
  simp [addGlyphQuad]

/-- With underline and strikethrough off, one geometry step grows the fill
buffer by six vertices exactly on non-skipped characters, and the outline
buffer additionally only when the outline thickness is nonzero. -/
lemma geomStep_lengths (ctx : GeomCtx) (hU : ctx.isUnderlined = false)
    (hS : ctx.isStrikeThrough = false) (st : GeomState) (c : ℕ) :
    (geomStep ctx st c).vertices.length
      = st.vertices.length + (if isSkippedChar c then 0 else 6)
  ∧ (geomStep ctx st c).outlineVertices.length
      = st.outlineVertices.length
        + (if isSkippedChar c ∨ ctx.outlineThickness = 0 then 0 else 6) := by
  unfold geomStep
  by_cases h13 : c = 13
  · simp [h13, isSkippedChar]
  · by_cases h32 : c = 32
    · subst h32
      simp [hU, hS, isSkippedChar]
    · by_cases h10 : c = 10
      · subst h10
        simp [hU, hS, isSkippedChar]
      · by_cases h9 : c = 9
        · subst h9
          simp [hU, hS, isSkippedChar]
        · have hsk : isSkippedChar c = false := by
            simp [isSkippedChar, h13, h32, h10, h9]
          by_cases hot : ctx.outlineThickness = 0
          · simp [hU, hS, h13, h32, h10, h9, hot, hsk, addGlyphQuad_length]
          · simp [hU, hS, h13, h32, h10, h9, hot, hsk, addGlyphQuad_length]

/-- The vertex-count bookkeeping of geomStep_lengths propagated through the
whole walk. -/
lemma foldl_geomStep_lengths (ctx : GeomCtx) (hU : ctx.isUnderlined = false)
    (hS : ctx.isStrikeThrough = false) :
    ∀ (cs : List ℕ) (st : GeomState),
      ((cs.foldl (geomStep ctx) st).vertices.length
        = st.vertices.length + 6 * glyphCount cs)
    ∧ ((cs.foldl (geomStep ctx) st).outlineVertices.length
        = st.outlineVertices.length
          + (if ctx.outlineThickness = 0 then 0 else 6 * glyphCount cs))
  | [], st => by simp [glyphCount]
  | c :: cs, st => by
    obtain ⟨ihv, iho⟩ := foldl_geomStep_lengths ctx hU hS cs (geomStep ctx st c)
    obtain ⟨hv, ho⟩ := geomStep_lengths ctx hU hS st c
    rw [List.foldl_cons] at *
    constructor
    · rw [ihv, hv]
      by_cases hc : isSkippedChar c <;> (simp [glyphCount, hc, List.filter_cons]; try omega)
    · rw [iho, ho]
      by_cases hc : isSkippedChar c <;> by_cases hot : ctx.outlineThickness = 0 <;>
        (simp [glyphCount, hc, hot, List.filter_cons]; try omega)

/-- C10: after a geometry rebuild with underline and strikethrough off the
fill buffer holds exactly 6 N vertices, N being the number of code points
that are not space, tab, newline or carriage return; the outline buffer
holds 6 N vertices when the outline thickness is nonzero and is empty when
it is zero. -/
theorem C10_vertex_counts (sh : ℚ) (t : TextState)
    (hU : styleUnderlined t.style = false) (hS : styleStrikeThrough t.style = false) :
    (rebuildGeometry sh t).vertices.length = 6 * glyphCount t.string
  ∧ (t.outlineThickness ≠ 0 →
      (rebuildGeometry sh t).outlineVertices.length = 6 * glyphCount t.string)
  ∧ (t.outlineThickness = 0 → (rebuildGeometry sh t).outlineVertices = []) := by
  have hctxU : (geomCtxOf sh (clearCache t)).isUnderlined = false := hU
  have hctxS : (geomCtxOf sh (clearCache t)).isStrikeThrough = false := hS
  unfold rebuildGeometry
  by_cases he : (clearCache t).string.isEmpty
  · have hnil : t.string = [] := List.isEmpty_iff.mp he
    rw [if_pos he]
    refine ⟨?_, fun _ => ?_, fun _ => ?_⟩ <;> simp [clearCache, hnil, glyphCount]
  · rw [if_neg he]
    obtain ⟨hv, ho⟩ := foldl_geomStep_lengths (geomCtxOf sh (clearCache t)) hctxU hctxS
      (clearCache t).string (geomStart (clearCache t))
    have hstr : (clearCache t).string = t.string := rfl
    rw [hstr] at hv ho
    simp only [hctxU, hctxS, Bool.false_eq_true, false_and, if_false]
    have hstart : (geomStart (clearCache t)).vertices = [] := rfl
    have hstart2 : (geomStart (clearCache t)).outlineVertices = [] := rfl
    rw [hstart] at hv
    rw [hstart2] at ho
    refine ⟨by simpa using hv, fun hne => ?_, fun hz => ?_⟩
    · have : (geomCtxOf sh (clearCache t)).outlineThickness = t.outlineThickness := rfl
      rw [this] at ho
      rw [if_neg hne] at ho
      simpa using ho
    · have : (geomCtxOf sh (clearCache t)).outlineThickness = t.outlineThickness := rfl
      rw [this] at ho
      rw [if_pos hz] at ho
      have hlen : (t.string.foldl (geomStep (geomCtxOf sh (clearCache t)))
          (geomStart (clearCache t))).outlineVertices.length = 0 := by simpa using ho
      exact List.length_eq_zero.mp hlen

/-- C10 witness: the counts evaluated at the concrete single-character state
with zero outline thickness. -/
theorem C10_witness :
    (styleUnderlined exC7.style = false ∧ styleStrikeThrough exC7.style = false)
  ∧ ((rebuildGeometry 0 exC7).vertices.length = 6 * glyphCount exC7.string
  ∧ (exC7.outlineThickness ≠ 0 →
      (rebuildGeometry 0 exC7).outlineVertices.length = 6 * glyphCount exC7.string)
  ∧ (exC7.outlineThickness = 0 → (rebuildGeometry 0 exC7).outlineVertices = [])) :=
  ⟨⟨by decide, by decide⟩, C10_vertex_counts 0 exC7 (by decide) (by decide)⟩

end SfmlText
